import Mathlib

/-!
# Verification of the MapSee-AI extraction pipeline

Shallow embedding of the payload model (`src/models/callback_request.py`),
the background orchestrator (`src/services/background_tasks.py`), the content
router (`src/services/content_router.py`), the video subtitle-frame extractor
(`src/services/preprocess/video.py`) and the narrow-path place-name extractor
(`src/services/modules/ollama_llm.py`), together with proofs of the spec's
testable properties about them.

Modelling conventions:
* Python exceptions are `Except String`; external collaborators (HTTP calls,
  `yt-dlp` downloads, the workflow module, `ffmpeg` decoding, `json.loads`)
  are passed in as oracle arguments describing their outcome.
* Python `str.lower` / `str.upper` / `in` substring tests are modelled over
  the character list of the string (ASCII case mapping).
* Python floats appearing in the region computation are modelled as exact
  rationals; `int()` truncation of a nonnegative value is floor, i.e. `Nat`
  floor division once the percentage is written as numerator/denominator.
-/

namespace MapSee

/-! ## String helpers (Python `in`, `lower`, `upper`, blank test) -/

/-- `listIsInfix sml big` decides whether `sml` occurs as a contiguous
sublist of `big`; this is Python's substring operator `sml in big`. -/
def listIsInfix (sml : List Char) : List Char → Bool
  | [] => sml.isEmpty
  | c :: rest => sml.isPrefixOf (c :: rest) || listIsInfix sml rest

/-- Python `sub in s` (substring containment). -/
def pyContains (s sub : String) : Bool :=
  listIsInfix sub.toList s.toList

/-- Python `s.lower()` (ASCII case mapping suffices for the domains and
paths compared by the router). -/
def pyLower (s : String) : String :=
  String.mk (s.toList.map Char.toLower)

/-- Python `s.upper()`. -/
def pyUpper (s : String) : String :=
  String.mk (s.toList.map Char.toUpper)

/-- Python whitespace test used by `str.strip`: the characters stripped by
the model (space, tab, newline, carriage return). -/
def pyIsSpace (c : Char) : Bool :=
  c = ' ' || c = '\t' || c = '\n' || c = '\r'

/-- Python `not caption or not caption.strip()`: the caption is empty or
consists only of whitespace. -/
def captionBlank (caption : String) : Bool :=
  caption = "" || caption.toList.all pyIsSpace

/-- Python `a or b` on optional strings (`None` and `""` are falsy),
used for `meta.get("contentUrl") or state.get("snsUrl")`. -/
def pyOrStr (a b : Option String) : Option String :=
  match a with
  | some s => if s = "" then b else some s
  | none => b

/-! ## Data model (`src/models`) -/

/-- `resultStatus` literal of `AiCallbackRequest`. -/
inductive ResultStatus
  | SUCCESS
  | FAILED
deriving DecidableEq, Repr

/-- The `snsPlatform` literal values accepted by the pydantic field
validator of `AiCallbackRequest`. -/
def allowedSnsPlatforms : List String :=
  ["INSTAGRAM", "YOUTUBE", "YOUTUBE_SHORTS", "TIKTOK", "FACEBOOK", "TWITTER"]

/-- Modelled from the spec: `ContentInfo` (`src/models/content_info.py` is
not in the source tree); spec section 6 gives `contentId` plus optional
`title`, `contentUrl`, `thumbnailUrl`, `platformUploader`, `summary`. -/
structure ContentInfo where
  contentId : String
  title : Option String
  contentUrl : Option String
  thumbnailUrl : Option String
  platformUploader : Option String
  summary : Option String
deriving DecidableEq, Repr

/-- Modelled from the spec: `PlaceExtractionDict`
(`src/models/place_extraction_dict.py` is not in the source tree); spec
section 6 gives name, address, optional country, optional coordinates,
description, optional raw data. -/
structure PlaceExtractionDict where
  name : String
  address : String
  country : Option String
  latitude : Option ℚ
  longitude : Option ℚ
  description : String
  rawData : Option String
deriving DecidableEq, Repr

/-- `AiCallbackRequest` (`src/models/callback_request.py`): the callback
payload. `contentId` is the UUID rendered as a string. The `rawData`
field is left at its default `None` by both construction sites and is
omitted here. -/
structure AiCallbackRequest where
  contentId : String
  resultStatus : ResultStatus
  snsPlatform : String
  contentInfo : Option ContentInfo
  places : List PlaceExtractionDict
deriving DecidableEq, Repr

/-- Constructing an `AiCallbackRequest` through pydantic: the `snsPlatform`
literal is validated first, then `validate_success_payload` runs — on
`SUCCESS` a missing `contentInfo` raises, on `FAILED` the `places` list is
overwritten with `[]`. -/
def mkAiCallbackRequest (contentId : String) (resultStatus : ResultStatus)
    (snsPlatform : String) (contentInfo : Option ContentInfo)
    (places : List PlaceExtractionDict) : Except String AiCallbackRequest :=
  if snsPlatform ∈ allowedSnsPlatforms then
    match resultStatus, contentInfo with
    | .SUCCESS, none => .error "contentInfo is required when resultStatus is SUCCESS"
    | .SUCCESS, some ci => .ok ⟨contentId, .SUCCESS, snsPlatform, some ci, places⟩
    | .FAILED, ci => .ok ⟨contentId, .FAILED, snsPlatform, ci, []⟩
  else .error "snsPlatform must be one of the allowed literal values"

/-- Decidable equality of collaborator outcomes, so that concrete runs can
be evaluated by `decide`. -/
instance {ε α : Type} [DecidableEq ε] [DecidableEq α] : DecidableEq (Except ε α) := fun a b =>
  match a, b with
  | .error e, .error f =>
    if h : e = f then .isTrue (congrArg Except.error h)
    else .isFalse (fun hc => h (Except.error.inj hc))
  | .ok x, .ok y =>
    if h : x = y then .isTrue (congrArg Except.ok h)
    else .isFalse (fun hc => h (Except.ok.inj hc))
  | .error _, .ok _ => .isFalse (fun hc => Except.noConfusion hc)
  | .ok _, .error _ => .isFalse (fun hc => Except.noConfusion hc)

/-- `PlaceExtractionRequest` (`src/models/place_extraction_request.py`):
the inbound request, a content UUID (as string) and the SNS URL. -/
structure PlaceExtractionRequest where
  contentId : String
  snsUrl : String
deriving DecidableEq, Repr

/-! ## Callback delivery (`src/services/background_tasks.py`) -/

/-- Outcome of one HTTP POST performed by `httpx`: a response with a status
code and body, a timeout (`httpx.TimeoutException`), or any other raised
exception. -/
inductive HttpOutcome
  | response (status : Nat) (body : String)
  | timeout
  | exn (msg : String)
deriving DecidableEq, Repr

/-- `send_callback`: one POST to the backend callback URL; `net k` is the
outcome of the `k`-th POST the function would issue. The function body
issues exactly one POST (`net 0`); the second component counts the POSTs
made. Returns `true` exactly on a 2xx response; the timeout handler and
the catch-all handler both return `false`, so the embedding is a total
`Bool`-valued function — no exception escapes. -/
def send_callback (_payload : AiCallbackRequest) (net : Nat → HttpOutcome) :
    Bool × Nat :=
  (match net 0 with
   | .response status _ => if 200 ≤ status ∧ status < 300 then true else false
   | .timeout => false
   | .exn _ => false,
   1)

/-- The platform guess inlined in `send_failed_callback`: substring checks
on the lowercased URL yield `(sns_platform, platform)`; the final branch
falls back to `("INSTAGRAM", "UNKNOWN")`. -/
def send_failed_callback_platform (snsUrl : String) : String × String :=
  let url := pyLower snsUrl
  if pyContains url "youtube.com" || pyContains url "youtu.be" then
    ("YOUTUBE", "YOUTUBE")
  else if pyContains url "instagram.com" then
    ("INSTAGRAM", "INSTAGRAM")
  else
    ("INSTAGRAM", "UNKNOWN")

/-- `send_failed_callback`: builds the FAILED payload (`contentInfo=None`,
`places=[]`, platform guessed from the URL) and hands it to
`send_callback`, whose boolean result the Python code discards. The
embedding returns the payload handed over; a pydantic validation failure
while building it would propagate as `.error`. -/
def send_failed_callback (request : PlaceExtractionRequest) :
    Except String AiCallbackRequest :=
  mkAiCallbackRequest request.contentId .FAILED
    (send_failed_callback_platform request.snsUrl).1 none []

/-- The FAILED payload that `send_failed_callback` builds. -/
def failedPayload (request : PlaceExtractionRequest) : AiCallbackRequest :=
  ⟨request.contentId, .FAILED,
    (send_failed_callback_platform request.snsUrl).1, none, []⟩

/-! ## Background orchestrator (`src/services/background_tasks.py`) -/

/-- Metadata dictionary returned by `extract_youtube_metadata` or
`extract_instagram_metadata`; the orchestrator reads these four keys with
`.get`. -/
structure MetaDict where
  title : Option String
  contentUrl : Option String
  thumbnailUrl : Option String
  platformUploader : Option String
deriving DecidableEq, Repr

/-- Modelled from the spec: outcome of `run_media_workflow`
(`src/services/workflow.py` is not in the source tree). After the workflow
returns, the orchestrator reads `result.places`, `state.get("snsPlatform")`
(set by the router during the workflow, absent if never set) and
`state["extractedData"].get("captionText", "")` (the default already
applied). -/
structure WorkflowResult where
  places : List PlaceExtractionDict
  snsPlatform : Option String
  captionText : String

/-- The `ContentInfo` assembled by the SUCCESS path of the orchestrator:
`contentUrl` falls back (Python `or`) to the request URL, `summary` is the
caption text. -/
def successContentInfo (request : PlaceExtractionRequest)
    (result : WorkflowResult) (meta : MetaDict) : ContentInfo :=
  { contentId := request.contentId
    title := meta.title
    contentUrl := pyOrStr meta.contentUrl (some request.snsUrl)
    thumbnailUrl := meta.thumbnailUrl
    platformUploader := meta.platformUploader
    summary := some result.captionText }

/-- The SUCCESS payload construction of the orchestrator:
`platform_value = (platform or "UNKNOWN").upper()`, the assembled
`ContentInfo`, and the workflow's place list, passed through pydantic
construction (which may raise, e.g. when `platform_value` is not an
allowed literal). -/
def successPayloadE (request : PlaceExtractionRequest)
    (result : WorkflowResult) (meta : MetaDict) :
    Except String AiCallbackRequest :=
  mkAiCallbackRequest request.contentId .SUCCESS
    (pyUpper (result.snsPlatform.getD "UNKNOWN"))
    (some (successContentInfo request result meta)) result.places

/-- `process_extraction_in_background`: the whole `try` body — workflow,
metadata load, `ContentInfo` assembly, SUCCESS payload construction,
callback send — with the `except Exception` handler that sends the FAILED
callback and returns `False`. `workflow`, `metaYoutube`, `metaInstagram`
are the collaborator outcomes; `net` is the HTTP oracle. The result is
the returned boolean together with the list of payloads handed to
`send_callback`, in order; `.error` would mean an exception escaping to
the caller. -/
def process_extraction_in_background (request : PlaceExtractionRequest)
    (workflow : Except String WorkflowResult)
    (metaYoutube metaInstagram : Except String MetaDict)
    (net : Nat → HttpOutcome) :
    Except String (Bool × List AiCallbackRequest) :=
  let tryBody : Except String (Bool × List AiCallbackRequest) :=
    match workflow with
    | .error e => .error e
    | .ok result =>
      match (if result.snsPlatform = some "youtube" then metaYoutube else metaInstagram) with
      | .error e => .error e
      | .ok meta =>
        match successPayloadE request result meta with
        | .error e => .error e
        | .ok callback_payload =>
          .ok ((send_callback callback_payload net).1, [callback_payload])
  match tryBody with
  | .ok r => .ok r
  | .error _ =>
    match send_failed_callback request with
    | .ok failed_payload => .ok (false, [failed_payload])
    | .error e => .error e

/-- A payload is *constructed* when some run of the background orchestrator
hands it to `send_callback` (this covers both the SUCCESS path and the
exception-triggered FAILED path — the only two construction sites of
`AiCallbackRequest` in the repository). -/
def ConstructedPayload (p : AiCallbackRequest) : Prop :=
  ∃ request workflow metaYoutube metaInstagram net b sent,
    process_extraction_in_background request workflow metaYoutube metaInstagram net
      = .ok (b, sent) ∧ p ∈ sent

/-- `True` when the workflow stage or the metadata stage selected by the
resolved platform raises — the "any pipeline stage raises" premise of the
orchestrator's error path. -/
def anyStageRaises (workflow : Except String WorkflowResult)
    (metaYoutube metaInstagram : Except String MetaDict) : Bool :=
  match workflow with
  | .error _ => true
  | .ok result =>
    !(if result.snsPlatform = some "youtube" then metaYoutube else metaInstagram).isOk

/-! ## Content router (`src/services/content_router.py`) -/

/-- The fields of `urllib.parse.urlparse(url)` read by the router. -/
structure ParsedUrl where
  netloc : String
  path : String
deriving DecidableEq, Repr

/-- The two classification fields of the `ExtractionState` that
`sns_router` writes and `type_router` reads. -/
structure RouterState where
  snsPlatform : Option String
  contentType : Option String
deriving DecidableEq, Repr

/-- Raw content bytes delivered by a download collaborator. -/
abbrev ByteStream := List Nat

/-- What `type_router` writes into `extractedData` on success: the
YouTube branch and the Instagram video branch write
`contentStream`/`captionText`, the Instagram image branch writes
`imageStream`/`captionText` (the yt-dlp stream wrapped in a singleton
list when present). -/
inductive DataUpdate
  | youtubeContent (stream : ByteStream) (caption : String)
  | instaVideo (stream : Option ByteStream) (caption : String)
  | instaImage (streams : Option (List ByteStream)) (caption : String)
deriving DecidableEq, Repr

/-- `type_router`: dispatch on `(snsPlatform, contentType)` to the
download collaborators `get_youtube_content` / `get_instagram_content_ytdlp`
(passed as outcome oracles). Unknown content type or platform raises
`CustomError`; a collaborator exception in the image branch is wrapped,
all other collaborator errors propagate (already `CustomError` or wrapped
by the outer handler into one — errors are strings here either way). -/
def type_router (st : RouterState)
    (getYoutube : Except String (ByteStream × String))
    (getInstaYtdlp : Except String (Option ByteStream × String)) :
    Except String DataUpdate :=
  if st.snsPlatform = some "youtube" then
    match getYoutube with
    | .ok (stream, caption) => .ok (.youtubeContent stream caption)
    | .error e => .error e
  else if st.snsPlatform = some "instagram" then
    if st.contentType = some "image" then
      match getInstaYtdlp with
      | .ok (ytdlpStream, caption) =>
        let streams := match ytdlpStream with
          | some s => some [s]
          | none => none
        .ok (.instaImage streams caption)
      | .error e => .error ("image download failed: " ++ e)
    else if st.contentType = some "video" then
      match getInstaYtdlp with
      | .ok (stream, caption) => .ok (.instaVideo stream caption)
      | .error e => .error e
    else .error "unsupported content type"
  else .error "unsupported platform"

/-- The classification phase of `sns_router`: substring checks on the
lowercased `netloc`, then for Instagram on the lowercased path. Note the
Instagram branch with no recognized path marker leaves `contentType`
untouched and does not raise here. Unknown hosts raise `CustomError`. -/
def sns_classify (parsed : ParsedUrl) (st : RouterState) :
    Except String RouterState :=
  let domain := pyLower parsed.netloc
  if pyContains domain "youtube.com" || pyContains domain "youtu.be" then
    .ok { st with snsPlatform := some "youtube", contentType := some "video" }
  else if pyContains domain "instagram.com" then
    let st := { st with snsPlatform := some "instagram" }
    let path := pyLower parsed.path
    if pyContains path "/p/" then
      .ok { st with contentType := some "image" }
    else if pyContains path "/reel/" || pyContains path "/reels/" || pyContains path "/tv/" then
      .ok { st with contentType := some "video" }
    else
      .ok st
  else .error ("unsupported platform: " ++ domain)

/-- `sns_router`: classify the parsed URL, then dispatch through
`type_router`. Returns the classified state together with the data
update. -/
def sns_router (parsed : ParsedUrl) (st : RouterState)
    (getYoutube : Except String (ByteStream × String))
    (getInstaYtdlp : Except String (Option ByteStream × String)) :
    Except String (RouterState × DataUpdate) :=
  match sns_classify parsed st with
  | .error e => .error e
  | .ok st' =>
    match type_router st' getYoutube getInstaYtdlp with
    | .error e => .error e
    | .ok upd => .ok (st', upd)

/-! ## Video subtitle-frame extractor (`src/services/preprocess/video.py`) -/

/-- `calculate_roi_coordinates`: the percentages are Python floats,
modelled as exact rationals `pNum / pDen`; `int(video_height * pct)`
truncates a nonnegative product, i.e. floor, i.e. `Nat` floor division.
Returns `(x, y, w, h)`. -/
def calculate_roi_coordinates (videoWidth videoHeight : Nat)
    (yStartNum yStartDen heightNum heightDen : Nat) :
    Nat × Nat × Nat × Nat :=
  (0, videoHeight * yStartNum / yStartDen, videoWidth,
   videoHeight * heightNum / heightDen)

/-- `ROI_Y_START_PERCENT = 0.60` as a fraction. -/
def ROI_Y_START : Nat × Nat := (60, 100)

/-- `ROI_HEIGHT_PERCENT = 0.40` as a fraction. -/
def ROI_HEIGHT : Nat × Nat := (40, 100)

/-- `calculate_roi`: the step function applying the configuration
constants. -/
def calculate_roi (videoWidth videoHeight : Nat) : Nat × Nat × Nat × Nat :=
  calculate_roi_coordinates videoWidth videoHeight
    ROI_Y_START.1 ROI_Y_START.2 ROI_HEIGHT.1 ROI_HEIGHT.2

/-- An `imagehash` perceptual hash: the flattened boolean hash array of a
decoded sample. A sampled frame that fails to decode or hash (the
`except` in the pass-1 loop) is `none`. -/
abbrev PHash := List Bool

/-- `imagehash` hash difference `current_hash - last_hash`: count of
positions where the flattened boolean arrays differ. -/
def hashDist (a b : PHash) : Nat :=
  ((a.zip b).filter (fun p => p.1 != p.2)).length

/-- The pass-1 loop of `extract_unique_subtitle_frames`: walk the sampled
(cropped) frames carrying `last_hash` and the sample index `i`; an
undecodable sample is skipped; a sample is recorded when there is no
prior hash or the hash distance to it exceeds the threshold, and then
becomes the new reference hash. Returns the recorded sample indices. -/
def detectChangeIndices (threshold : Nat) :
    Option PHash → Nat → List (Option PHash) → List Nat
  | _, _, [] => []
  | lastHash, i, none :: rest => detectChangeIndices threshold lastHash (i + 1) rest
  | none, i, some h :: rest => i :: detectChangeIndices threshold (some h) (i + 1) rest
  | some lh, i, some h :: rest =>
    if threshold < hashDist h lh then
      i :: detectChangeIndices threshold (some h) (i + 1) rest
    else
      detectChangeIndices threshold (some lh) (i + 1) rest

/-- Pass 1 of `extract_unique_subtitle_frames`: the recorded
`unique_timestamps`, where sample `i` has timestamp `i / sample_fps`. -/
def extract_unique_subtitle_frames_pass1 (sampleFps threshold : Nat)
    (roiFrames : List (Option PHash)) : List ℚ :=
  (detectChangeIndices threshold none 0 roiFrames).map
    (fun i => (i : ℚ) / (sampleFps : ℚ))

/-- A full decoded frame image (PNG byte blob). -/
abbrev FrameImage := List Nat

/-- Pass 2 of `extract_unique_subtitle_frames`: for each change-point
timestamp re-decode the full frame; `fullFrame t` is `none` when the
decode produced no bytes or `Image.verify` rejected them — such frames
are dropped without retry. -/
def extract_unique_subtitle_frames_pass2 (timestamps : List ℚ)
    (fullFrame : ℚ → Option FrameImage) : List (ℚ × FrameImage) :=
  timestamps.filterMap (fun t => (fullFrame t).map (fun img => (t, img)))

/-- `extract_unique_subtitle_frames`: both passes composed (the empty
change-point list short-circuits to `[]`, which `filterMap` also gives). -/
def extract_unique_subtitle_frames (sampleFps threshold : Nat)
    (roiFrames : List (Option PHash)) (fullFrame : ℚ → Option FrameImage) :
    List (ℚ × FrameImage) :=
  extract_unique_subtitle_frames_pass2
    (extract_unique_subtitle_frames_pass1 sampleFps threshold roiFrames) fullFrame

/-- A sequence of sampled frames alternating between two hashes,
beginning with `a`: `a, b, a, b, …`, all decodable. -/
def altFrames (a b : PHash) : Nat → List (Option PHash)
  | 0 => []
  | n + 1 => some a :: altFrames b a n

/-! ## Narrow-path place-name extractor (`src/services/modules/ollama_llm.py`) -/

/-- `OllamaPlaceResult`. -/
structure OllamaPlaceResult where
  place_names : List String
  has_places : Bool
deriving DecidableEq, Repr

/-- The empty result `OllamaPlaceResult(place_names=[], has_places=False)`. -/
def emptyOllamaResult : OllamaPlaceResult := ⟨[], false⟩

/-- Outcome of one attempt of the retry loop, as far as the `try` blocks
distinguish them: the HTTP helper raised `CustomError` (network failure),
some other exception was raised, the response carried no content, the
content failed `json.loads`, or it parsed — in which case
`parsed.get("place_names", [])` yields a string list. -/
inductive OllamaAttempt
  | netError (msg : String)
  | otherError (msg : String)
  | emptyContent
  | badJson (msg : String)
  | parsed (placeNames : List String)
deriving DecidableEq, Repr

/-- Whether an attempt outcome takes one of the three `continue` paths of
the loop body (network failure, missing content, parse failure) rather
than returning. -/
def attemptFails : OllamaAttempt → Bool
  | .parsed _ => false
  | _ => true

/-- The `for attempt in range(1, max_retries + 1)` loop: `oracle k` is the
outcome of the `k`-th backend call (0-based); `remaining` counts down the
attempts left, `calls` the backend calls already made. A parsed attempt
returns immediately with `has_places` recomputed from the list length;
every failure outcome falls through to the next attempt; exhaustion
returns the empty result instead of raising. The second component of the
result is the total number of backend calls made. -/
def ollamaRetryLoop (oracle : Nat → OllamaAttempt) :
    Nat → Nat → OllamaPlaceResult × Nat
  | 0, calls => (emptyOllamaResult, calls)
  | remaining + 1, calls =>
    match oracle calls with
    | .parsed placeNames =>
      ({ place_names := placeNames, has_places := decide (0 < placeNames.length) },
       calls + 1)
    | _ => ollamaRetryLoop oracle remaining (calls + 1)

/-- `extract_place_names_with_ollama`: a blank caption returns the empty
result before any backend call; otherwise the retry loop runs with
`max_retries` attempts. Returns the result together with the number of
backend calls made. Total — no exception escapes. -/
def extract_place_names_with_ollama (caption : String)
    (oracle : Nat → OllamaAttempt) (maxRetries : Nat := 3) :
    OllamaPlaceResult × Nat :=
  if captionBlank caption then (emptyOllamaResult, 0)
  else ollamaRetryLoop oracle maxRetries 0

/-! ## Theorems -/

/-- C6: the region computation on a 1080x1920 frame with the configured
percentages (0.60, 0.40) returns exactly `(x=0, y=1152, w=1080, h=768)`,
and for every `(width, height)` pair the computed region satisfies
`region.y + region.h ≤ height`. -/
theorem claim_C6 :
    calculate_roi 1080 1920 = (0, 1152, 1080, 768) ∧
    ∀ width height : Nat,
      (calculate_roi width height).2.1 + (calculate_roi width height).2.2.2 ≤ height := by
  constructor
  · rfl
  · intro width height
    simp only [calculate_roi, calculate_roi_coordinates, ROI_Y_START, ROI_HEIGHT]
    omega

/-- C7: callback delivery makes exactly one POST, returns `true` exactly
when the response status lies in `[200, 300)`, and maps a timeout or any
other exception to `false`; the embedding is a total function, so no
exception propagates. -/
theorem claim_C7 :
    ∀ (payload : AiCallbackRequest) (net : Nat → HttpOutcome),
      (send_callback payload net).2 = 1 ∧
      ((send_callback payload net).1 = true ↔
        ∃ status body, net 0 = .response status body ∧ 200 ≤ status ∧ status < 300) ∧
      (net 0 = .timeout → (send_callback payload net).1 = false) ∧
      (∀ msg, net 0 = .exn msg → (send_callback payload net).1 = false) := by
  intro payload net
  refine ⟨rfl, ?_, ?_, ?_⟩
  · cases hn : net 0 with
    | response status body =>
      by_cases hs : 200 ≤ status ∧ status < 300
      · simp only [send_callback, hn, if_pos hs]
        exact ⟨fun _ => ⟨status, body, rfl, hs.1, hs.2⟩, fun _ => trivial⟩
      · simp only [send_callback, hn, if_neg hs]
        constructor
        · intro hb; exact absurd hb (by simp)
        · rintro ⟨s, b, hsb, h1, h2⟩
          injection hsb with hs' hb'
          subst hs'
          exact absurd ⟨h1, h2⟩ hs
    | timeout => simp [send_callback, hn]
    | exn msg => simp [send_callback, hn]
  · intro hn
    simp [send_callback, hn]
  · intro msg hn
    simp [send_callback, hn]

/-- C7 witness: a timed-out delivery attempt returns `false`. -/
theorem claim_C7_witness :
    (send_callback ⟨"cid", .FAILED, "INSTAGRAM", none, []⟩ (fun _ => .timeout)).1 = false :=
  (claim_C7 ⟨"cid", .FAILED, "INSTAGRAM", none, []⟩ (fun _ => .timeout)).2.2.1 rfl

/-- The retry loop makes at most `remaining` further backend calls. -/
theorem ollamaRetryLoop_calls_le (oracle : Nat → OllamaAttempt) :
    ∀ remaining calls, (ollamaRetryLoop oracle remaining calls).2 ≤ calls + remaining := by
  intro remaining
  induction remaining with
  | zero => intro calls; simp [ollamaRetryLoop]
  | succ m ih =>
    intro calls
    simp only [ollamaRetryLoop]
    cases oracle calls with
    | parsed placeNames =>
      show calls + 1 ≤ calls + (m + 1)
      omega
    | netError msg =>
      have := ih (calls + 1)
      show (ollamaRetryLoop oracle m (calls + 1)).2 ≤ calls + (m + 1)
      omega
    | otherError msg =>
      have := ih (calls + 1)
      show (ollamaRetryLoop oracle m (calls + 1)).2 ≤ calls + (m + 1)
      omega
    | emptyContent =>
      have := ih (calls + 1)
      show (ollamaRetryLoop oracle m (calls + 1)).2 ≤ calls + (m + 1)
      omega
    | badJson msg =>
      have := ih (calls + 1)
      show (ollamaRetryLoop oracle m (calls + 1)).2 ≤ calls + (m + 1)
      omega

/-- If every remaining attempt fails, the loop exhausts all attempts and
returns the empty result. -/
theorem ollamaRetryLoop_all_fail (oracle : Nat → OllamaAttempt) :
    ∀ remaining calls,
      (∀ k, k < remaining → attemptFails (oracle (calls + k)) = true) →
      ollamaRetryLoop oracle remaining calls = (emptyOllamaResult, calls + remaining) := by
  intro remaining
  induction remaining with
  | zero => intro calls _; simp [ollamaRetryLoop]
  | succ m ih =>
    intro calls hfail
    have h0 : attemptFails (oracle calls) = true := by
      have := hfail 0 (Nat.succ_pos m)
      simpa using this
    have hrest : ∀ k, k < m → attemptFails (oracle (calls + 1 + k)) = true := by
      intro k hk
      have hEq : calls + 1 + k = calls + (k + 1) := by omega
      rw [hEq]
      exact hfail (k + 1) (by omega)
    have hloop := ih (calls + 1) hrest
    have hEq2 : calls + 1 + m = calls + (m + 1) := by omega
    rw [hEq2] at hloop
    simp only [ollamaRetryLoop]
    cases ho : oracle calls with
    | parsed placeNames => rw [ho] at h0; simp [attemptFails] at h0
    | netError msg => exact hloop
    | otherError msg => exact hloop
    | emptyContent => exact hloop
    | badJson msg => exact hloop

/-- C8: the narrow-path extractor makes at most 3 backend calls, and if
every attempt fails (network failure, missing content or JSON-parse
failure alike) it returns the empty result `place_names=[],
has_places=false`; the embedding is total, so nothing is raised to the
caller. -/
theorem claim_C8 :
    ∀ (caption : String) (oracle : Nat → OllamaAttempt),
      (extract_place_names_with_ollama caption oracle 3).2 ≤ 3 ∧
      ((∀ k, k < 3 → attemptFails (oracle k) = true) →
        (extract_place_names_with_ollama caption oracle 3).1 = emptyOllamaResult) := by
  intro caption oracle
  unfold extract_place_names_with_ollama
  by_cases hb : captionBlank caption = true
  · simp [hb]
  · rw [if_neg hb]
    constructor
    · simpa using ollamaRetryLoop_calls_le oracle 3 0
    · intro hfail
      rw [ollamaRetryLoop_all_fail oracle 3 0 (by simpa using hfail)]

/-- C8 witness: three attempts failing in three different ways (network
failure, missing content, JSON-parse failure) produce the empty result
within the 3-call budget. -/
theorem claim_C8_witness :
    (extract_place_names_with_ollama "hello"
      (fun k => if k = 0 then .netError "conn" else
                if k = 1 then .emptyContent else .badJson "bad") 3).2 ≤ 3 ∧
    (extract_place_names_with_ollama "hello"
      (fun k => if k = 0 then .netError "conn" else
                if k = 1 then .emptyContent else .badJson "bad") 3).1 = emptyOllamaResult :=
  ⟨(claim_C8 "hello" _).1,
   (claim_C8 "hello"
      (fun k => if k = 0 then .netError "conn" else
                if k = 1 then .emptyContent else .badJson "bad")).2 (by decide)⟩

/-- C9: a caption that is empty or whitespace-only short-circuits to the
empty result with zero backend calls. -/
theorem claim_C9 :
    ∀ (caption : String) (oracle : Nat → OllamaAttempt) (maxRetries : Nat),
      captionBlank caption = true →
      extract_place_names_with_ollama caption oracle maxRetries = (emptyOllamaResult, 0) := by
  intro caption oracle maxRetries h
  simp [extract_place_names_with_ollama, h]

/-- C9 witness: the whitespace caption `"  "` yields the empty result and
zero backend calls even when the backend would answer with places. -/
theorem claim_C9_witness :
    extract_place_names_with_ollama "  " (fun _ => .parsed ["Some Place"]) 3 =
      (emptyOllamaResult, 0) :=
  claim_C9 "  " (fun _ => .parsed ["Some Place"]) 3 (by decide)

/-- The platform guess of `send_failed_callback` is always an allowed
`snsPlatform` literal. -/
theorem send_failed_callback_platform_mem (snsUrl : String) :
    (send_failed_callback_platform snsUrl).1 ∈ allowedSnsPlatforms := by
  unfold send_failed_callback_platform
  dsimp only
  split
  · decide
  · split
    · decide
    · decide

/-- `send_failed_callback` always succeeds, producing the FAILED payload
with no `contentInfo` and empty `places`. -/
theorem send_failed_callback_eq (request : PlaceExtractionRequest) :
    send_failed_callback request = .ok (failedPayload request) := by
  unfold send_failed_callback mkAiCallbackRequest failedPayload
  rw [if_pos (send_failed_callback_platform_mem request.snsUrl)]

/-- Inversion for a successful SUCCESS-payload construction. -/
theorem successPayloadE_ok_inv {request : PlaceExtractionRequest}
    {result : WorkflowResult} {meta : MetaDict} {p : AiCallbackRequest}
    (h : successPayloadE request result meta = .ok p) :
    p.resultStatus = .SUCCESS ∧
    p.contentInfo = some (successContentInfo request result meta) ∧
    p.places = result.places := by
  unfold successPayloadE mkAiCallbackRequest at h
  split at h
  · injection h with h
    subst h
    exact ⟨rfl, rfl, rfl⟩
  · exact absurd h (by simp)

/-- When a pipeline stage raises, the orchestrator goes down the `except`
path: it returns `False` and the only payload handed to `send_callback`
is the FAILED payload. -/
theorem process_stage_failure (request : PlaceExtractionRequest)
    (workflow : Except String WorkflowResult)
    (metaYoutube metaInstagram : Except String MetaDict)
    (net : Nat → HttpOutcome)
    (h : anyStageRaises workflow metaYoutube metaInstagram = true) :
    process_extraction_in_background request workflow metaYoutube metaInstagram net =
      .ok (false, [failedPayload request]) := by
  cases workflow with
  | error e =>
    simp only [process_extraction_in_background, send_failed_callback_eq]
  | ok result =>
    simp only [anyStageRaises] at h
    cases hm : (if result.snsPlatform = some "youtube" then metaYoutube else metaInstagram) with
    | ok meta => rw [hm] at h; simp [Except.toBool] at h
    | error e =>
      simp only [process_extraction_in_background, hm, send_failed_callback_eq]

/-- C2: the background orchestrator never re-raises — every run produces
an `.ok` result — and whenever a pipeline stage (workflow or the selected
metadata extraction) raises, it delivers exactly one FAILED payload
(platform guessed from URL substrings, `contentInfo` omitted, `places`
empty) and returns `False`. -/
theorem claim_C2 :
    ∀ (request : PlaceExtractionRequest) (workflow : Except String WorkflowResult)
      (metaYoutube metaInstagram : Except String MetaDict) (net : Nat → HttpOutcome),
      (process_extraction_in_background request workflow metaYoutube metaInstagram net).isOk
        = true ∧
      (anyStageRaises workflow metaYoutube metaInstagram = true →
        process_extraction_in_background request workflow metaYoutube metaInstagram net =
          .ok (false, [⟨request.contentId, .FAILED,
            (send_failed_callback_platform request.snsUrl).1, none, []⟩])) := by
  intro request workflow metaYoutube metaInstagram net
  constructor
  · cases workflow with
    | error e =>
      rw [process_stage_failure request (.error e) metaYoutube metaInstagram net rfl]
      rfl
    | ok result =>
      cases hm : (if result.snsPlatform = some "youtube" then metaYoutube else metaInstagram) with
      | error e =>
        rw [process_stage_failure request (.ok result) metaYoutube metaInstagram net
          (by simp [anyStageRaises, hm, Except.toBool])]
        rfl
      | ok meta =>
        cases hmk : successPayloadE request result meta with
        | ok p =>
          simp only [process_extraction_in_background, hm, hmk]
          rfl
        | error e =>
          simp only [process_extraction_in_background, hm, hmk, send_failed_callback_eq]
          rfl
  · intro h
    exact process_stage_failure request workflow metaYoutube metaInstagram net h

/-- C2 witness: a concrete workflow failure on an Instagram reel URL is
absorbed and delivered as the FAILED payload. -/
theorem claim_C2_witness :
    (process_extraction_in_background ⟨"cid", "https://www.instagram.com/reel/ABC/"⟩
        (.error "stage failure") (.error "meta") (.error "meta")
        (fun _ => .timeout)).isOk = true ∧
    process_extraction_in_background ⟨"cid", "https://www.instagram.com/reel/ABC/"⟩
        (.error "stage failure") (.error "meta") (.error "meta") (fun _ => .timeout) =
      .ok (false, [⟨"cid", .FAILED,
        (send_failed_callback_platform "https://www.instagram.com/reel/ABC/").1,
        none, []⟩]) :=
  ⟨(claim_C2 ⟨"cid", "https://www.instagram.com/reel/ABC/"⟩ (.error "stage failure")
      (.error "meta") (.error "meta") (fun _ => .timeout)).1,
   (claim_C2 ⟨"cid", "https://www.instagram.com/reel/ABC/"⟩ (.error "stage failure")
      (.error "meta") (.error "meta") (fun _ => .timeout)).2 rfl⟩

/-- C10: for a request whose URL contains neither a YouTube domain
substring nor the Instagram domain substring, a pipeline failure still
delivers a FAILED payload whose `snsPlatform` is the hard-coded default
`"INSTAGRAM"` — not an unknown marker. -/
theorem claim_C10 :
    ∀ (request : PlaceExtractionRequest) (e : String)
      (metaYoutube metaInstagram : Except String MetaDict) (net : Nat → HttpOutcome),
      pyContains (pyLower request.snsUrl) "youtube.com" = false →
      pyContains (pyLower request.snsUrl) "youtu.be" = false →
      pyContains (pyLower request.snsUrl) "instagram.com" = false →
      process_extraction_in_background request (.error e) metaYoutube metaInstagram net =
        .ok (false, [⟨request.contentId, .FAILED, "INSTAGRAM", none, []⟩]) ∧
      ("INSTAGRAM" : String) ≠ "UNKNOWN" := by
  intro request e metaYoutube metaInstagram net h1 h2 h3
  have hplat : (send_failed_callback_platform request.snsUrl).1 = "INSTAGRAM" := by
    simp [send_failed_callback_platform, h1, h2, h3]
  refine ⟨?_, by decide⟩
  have := process_stage_failure request (.error e) metaYoutube metaInstagram net rfl
  rw [this]
  unfold failedPayload
  rw [hplat]

/-- C10 witness: a TikTok URL failure is reported with
`snsPlatform="INSTAGRAM"`. -/
theorem claim_C10_witness :
    process_extraction_in_background ⟨"cid", "https://www.tiktok.com/@user/video/1"⟩
        (.error "boom") (.error "meta") (.error "meta") (fun _ => .timeout) =
      .ok (false, [⟨"cid", .FAILED, "INSTAGRAM", none, []⟩]) ∧
    ("INSTAGRAM" : String) ≠ "UNKNOWN" :=
  claim_C10 ⟨"cid", "https://www.tiktok.com/@user/video/1"⟩ "boom"
    (.error "meta") (.error "meta") (fun _ => .timeout)
    (by decide) (by decide) (by decide)

/-- From a run equation, the delivered list is the one the branch built. -/
theorem sent_eq_of_run {v : Bool × List AiCallbackRequest} {b : Bool}
    {sent : List AiCallbackRequest}
    (h : (Except.ok v : Except String (Bool × List AiCallbackRequest)) = .ok (b, sent)) :
    sent = v.2 := by
  injection h with h2
  rw [h2]

/-- The FAILED payload satisfies the payload invariant. -/
theorem failedPayload_props (request : PlaceExtractionRequest) :
    ((failedPayload request).contentInfo.isSome = true ↔
      (failedPayload request).resultStatus = .SUCCESS) ∧
    ((failedPayload request).resultStatus = .FAILED →
      (failedPayload request).places = []) := by
  refine ⟨?_, fun _ => rfl⟩
  simp [failedPayload]

/-- C1 counterexample: the SUCCESS path constructs — and hands to
`send_callback` — a payload with `resultStatus=SUCCESS` and an *empty*
`places` list as soon as the workflow extracts no places (a normal
outcome), so "places is empty only if resultStatus=FAILED" is false. -/
theorem claim_C1_counterexample :
    ∃ p : AiCallbackRequest, ConstructedPayload p ∧
      p.places = [] ∧ p.resultStatus ≠ .FAILED := by
  refine ⟨⟨"cid", .SUCCESS, "INSTAGRAM",
      some ⟨"cid", none, some "https://www.instagram.com/reel/ABC/", none, none,
        some "caption"⟩, []⟩,
    ⟨⟨"cid", "https://www.instagram.com/reel/ABC/"⟩,
      .ok ⟨[], some "instagram", "caption"⟩,
      .error "unused", .ok ⟨none, none, none, none⟩,
      fun _ => .response 200 "ok", true,
      [⟨"cid", .SUCCESS, "INSTAGRAM",
        some ⟨"cid", none, some "https://www.instagram.com/reel/ABC/", none, none,
          some "caption"⟩, []⟩], ?_, ?_⟩, rfl, by decide⟩
  · decide
  · decide

/-- C1 (amended): every payload constructed by any code path satisfies
`contentInfo` present iff `resultStatus=SUCCESS`, and on FAILED the
`places` list is empty; the converse of the second part fails (see the
counterexample), because a SUCCESS payload carries whatever place list
the workflow produced, including the empty one. -/
theorem claim_C1_amended :
    ∀ p : AiCallbackRequest, ConstructedPayload p →
      (p.contentInfo.isSome = true ↔ p.resultStatus = .SUCCESS) ∧
      (p.resultStatus = .FAILED → p.places = []) := by
  rintro p ⟨request, workflow, mY, mI, net, b, sent, hrun, hmem⟩
  cases workflow with
  | error e =>
    rw [process_stage_failure request (.error e) mY mI net rfl] at hrun
    have hsent := sent_eq_of_run hrun
    subst hsent
    have hp : p = failedPayload request := by simpa using hmem
    subst hp
    exact failedPayload_props request
  | ok result =>
    cases hm : (if result.snsPlatform = some "youtube" then mY else mI) with
    | error e =>
      rw [process_stage_failure request (.ok result) mY mI net
        (by simp [anyStageRaises, hm, Except.toBool])] at hrun
      have hsent := sent_eq_of_run hrun
      subst hsent
      have hp : p = failedPayload request := by simpa using hmem
      subst hp
      exact failedPayload_props request
    | ok meta =>
      cases hmk : successPayloadE request result meta with
      | error e2 =>
        have hproc : process_extraction_in_background request (.ok result) mY mI net =
            .ok (false, [failedPayload request]) := by
          simp only [process_extraction_in_background, hm, hmk, send_failed_callback_eq]
        rw [hproc] at hrun
        have hsent := sent_eq_of_run hrun
        subst hsent
        have hp : p = failedPayload request := by simpa using hmem
        subst hp
        exact failedPayload_props request
      | ok q =>
        have hproc : process_extraction_in_background request (.ok result) mY mI net =
            .ok ((send_callback q net).1, [q]) := by
          simp only [process_extraction_in_background, hm, hmk]
        rw [hproc] at hrun
        have hsent := sent_eq_of_run hrun
        subst hsent
        have hp : p = q := by simpa using hmem
        subst hp
        obtain ⟨hst, hci, _⟩ := successPayloadE_ok_inv hmk
        constructor
        · rw [hci, hst]
          simp
        · intro hf
          rw [hst] at hf
          exact absurd hf (by simp)

/-- C1 witness: the amended invariant evaluated on the FAILED payload of a
concrete unroutable-URL run. -/
theorem claim_C1_witness :
    ((failedPayload ⟨"cid", "https://example.com/post/7"⟩).contentInfo.isSome = true ↔
      (failedPayload ⟨"cid", "https://example.com/post/7"⟩).resultStatus = .SUCCESS) ∧
    ((failedPayload ⟨"cid", "https://example.com/post/7"⟩).resultStatus = .FAILED →
      (failedPayload ⟨"cid", "https://example.com/post/7"⟩).places = []) :=
  claim_C1_amended (failedPayload ⟨"cid", "https://example.com/post/7"⟩)
    ⟨⟨"cid", "https://example.com/post/7"⟩, .error "boom", .error "m", .error "m",
      fun _ => .timeout, false, [failedPayload ⟨"cid", "https://example.com/post/7"⟩],
      by decide, by decide⟩

/-- Hash distance of an image to itself is zero. -/
theorem hashDist_self : ∀ h : PHash, hashDist h h = 0 := by
  intro h
  induction h with
  | nil => rfl
  | cons c t ih => simpa [hashDist, List.filter_cons] using ih

/-- Hash distance is symmetric. -/
theorem hashDist_comm : ∀ a b : PHash, hashDist a b = hashDist b a := by
  intro a
  induction a with
  | nil => intro b; cases b <;> rfl
  | cons x xs ih =>
    intro b
    cases b with
    | nil => rfl
    | cons y ys =>
      have base := ih ys
      by_cases hxy : x = y
      · subst hxy
        simpa [hashDist, List.filter_cons] using base
      · have h1 : (x != y) = true := bne_iff_ne.mpr hxy
        have h2 : (y != x) = true := bne_iff_ne.mpr (Ne.symm hxy)
        simpa [hashDist, List.filter_cons, h1, h2] using base

/-- With the reference hash equal to every following frame, nothing more
is recorded. -/
theorem detectChangeIndices_replicate (threshold : Nat) (h : PHash) :
    ∀ n i, detectChangeIndices threshold (some h) i (List.replicate n (some h)) = [] := by
  intro n
  induction n with
  | zero => intro i; rfl
  | succ m ih =>
    intro i
    rw [List.replicate_succ]
    simp only [detectChangeIndices, hashDist_self]
    rw [if_neg (by omega)]
    exact ih (i + 1)

/-- Alternating frames more than `threshold` apart are all recorded. -/
theorem detectChangeIndices_alt (threshold : Nat) :
    ∀ (n : Nat) (a b : PHash) (i : Nat), threshold < hashDist a b →
      detectChangeIndices threshold (some b) i (altFrames a b n) = List.range' i n := by
  intro n
  induction n with
  | zero => intro a b i _; rfl
  | succ m ih =>
    intro a b i hab
    simp only [altFrames, detectChangeIndices]
    rw [if_pos hab, List.range'_succ]
    rw [ih b a (i + 1) (by rw [hashDist_comm]; exact hab)]

/-- C5: pass 1 of the frame extractor records exactly one change point —
the first sample, timestamp 0 — on any non-empty run of identical
decodable frames, and records every sample when the frames alternate
between two images whose hash distance exceeds the threshold. -/
theorem claim_C5 :
    ∀ (sampleFps threshold : Nat) (h a b : PHash) (n : Nat),
      (0 < n →
        extract_unique_subtitle_frames_pass1 sampleFps threshold
          (List.replicate n (some h)) = [(0 : ℚ)]) ∧
      (threshold < hashDist a b →
        extract_unique_subtitle_frames_pass1 sampleFps threshold (altFrames a b n) =
          (List.range n).map (fun i => (i : ℚ) / (sampleFps : ℚ))) := by
  intro fps t h a b n
  constructor
  · intro hn
    obtain ⟨m, rfl⟩ : ∃ m, n = m + 1 := ⟨n - 1, by omega⟩
    unfold extract_unique_subtitle_frames_pass1
    rw [List.replicate_succ]
    simp only [detectChangeIndices]
    rw [detectChangeIndices_replicate]
    simp
  · intro hab
    unfold extract_unique_subtitle_frames_pass1
    cases n with
    | zero => rfl
    | succ m =>
      simp only [altFrames, detectChangeIndices]
      rw [detectChangeIndices_alt t m b a 1 (by rw [hashDist_comm]; exact hab)]
      rw [List.range_eq_range', List.range'_succ]

/-- C5 witness: three identical frames give the single change point 0;
three frames alternating between two hashes 11 bits apart (threshold 10)
are all recorded. -/
theorem claim_C5_witness :
    extract_unique_subtitle_frames_pass1 2 10
      (List.replicate 3 (some (List.replicate 4 true))) = [(0 : ℚ)] ∧
    extract_unique_subtitle_frames_pass1 2 10
      (altFrames (List.replicate 11 true) (List.replicate 11 false) 3) =
      (List.range 3).map (fun i => (i : ℚ) / ((2 : Nat) : ℚ)) :=
  ⟨(claim_C5 2 10 (List.replicate 4 true) (List.replicate 11 true)
      (List.replicate 11 false) 3).1 (by decide),
   (claim_C5 2 10 (List.replicate 4 true) (List.replicate 11 true)
      (List.replicate 11 false) 3).2 (by decide)⟩

/-- Classification of a host that reaches the Instagram branch: platform
is instagram; the path markers are checked in order (`/p/` first, then the
reel markers); with no marker the content type is left untouched. -/
theorem sns_classify_instagram (parsed : ParsedUrl) (st : RouterState)
    (h1 : pyContains (pyLower parsed.netloc) "youtube.com" = false)
    (h2 : pyContains (pyLower parsed.netloc) "youtu.be" = false)
    (h3 : pyContains (pyLower parsed.netloc) "instagram.com" = true) :
    sns_classify parsed st =
      .ok ⟨some "instagram",
        (if pyContains (pyLower parsed.path) "/p/" then some "image"
         else if (pyContains (pyLower parsed.path) "/reel/" ||
             pyContains (pyLower parsed.path) "/reels/" ||
             pyContains (pyLower parsed.path) "/tv/") then some "video"
         else st.contentType)⟩ := by
  simp only [sns_classify]
  rw [if_neg (by simp [h1, h2]), if_pos (by simp [h3])]
  by_cases hp : pyContains (pyLower parsed.path) "/p/" = true
  · simp [hp]
  · have hp' : pyContains (pyLower parsed.path) "/p/" = false := by
      simpa using hp
    by_cases hr : (pyContains (pyLower parsed.path) "/reel/" ||
        pyContains (pyLower parsed.path) "/reels/" ||
        pyContains (pyLower parsed.path) "/tv/") = true
    · simp [hp', hr]
    · have hr' : (pyContains (pyLower parsed.path) "/reel/" ||
          pyContains (pyLower parsed.path) "/reels/" ||
          pyContains (pyLower parsed.path) "/tv/") = false := by
        simpa using hr
      simp [hp', hr']

/-- C3 counterexample: (1) the host `youtube.com.instagram.com` — an
`instagram.com` subdomain, so its host contains the Instagram domain —
classifies as platform *youtube*, because the YouTube substring check runs
first; (2) the Instagram path `/p/abc/reel/xyz/` contains a reel marker
yet classifies as *image*, because the post marker check runs first. -/
theorem claim_C3_counterexample :
    (pyContains (pyLower "youtube.com.instagram.com") "instagram.com" = true ∧
      sns_classify ⟨"youtube.com.instagram.com", "/reel/abc/"⟩ ⟨none, none⟩ =
        .ok ⟨some "youtube", some "video"⟩ ∧
      (some "youtube" : Option String) ≠ some "instagram") ∧
    (pyContains (pyLower "/p/abc/reel/xyz/") "/reel/" = true ∧
      sns_classify ⟨"www.instagram.com", "/p/abc/reel/xyz/"⟩ ⟨none, none⟩ =
        .ok ⟨some "instagram", some "image"⟩ ∧
      (some "image" : Option String) ≠ some "video") := by
  refine ⟨⟨?_, ?_, ?_⟩, ⟨?_, ?_, ?_⟩⟩ <;> decide

/-- C3 (amended): for a URL whose host contains the Instagram domain and
no YouTube domain, classification yields platform=instagram; the path
markers are checked in order — a post marker (`/p/`) gives image,
otherwise a reel/short-video marker (`/reel/`, `/reels/`, `/tv/`) gives
video, and with neither marker the classify-and-route call fails with the
UnsupportedSource error (`CustomError`). -/
theorem claim_C3_amended :
    ∀ (parsed : ParsedUrl)
      (getYoutube : Except String (ByteStream × String))
      (getInstaYtdlp : Except String (Option ByteStream × String)),
      pyContains (pyLower parsed.netloc) "youtube.com" = false →
      pyContains (pyLower parsed.netloc) "youtu.be" = false →
      pyContains (pyLower parsed.netloc) "instagram.com" = true →
      (∃ st', sns_classify parsed ⟨none, none⟩ = .ok st' ∧
        st'.snsPlatform = some "instagram") ∧
      (pyContains (pyLower parsed.path) "/p/" = true →
        sns_classify parsed ⟨none, none⟩ = .ok ⟨some "instagram", some "image"⟩) ∧
      (pyContains (pyLower parsed.path) "/p/" = false →
        (pyContains (pyLower parsed.path) "/reel/" ||
          pyContains (pyLower parsed.path) "/reels/" ||
          pyContains (pyLower parsed.path) "/tv/") = true →
        sns_classify parsed ⟨none, none⟩ = .ok ⟨some "instagram", some "video"⟩) ∧
      (pyContains (pyLower parsed.path) "/p/" = false →
        (pyContains (pyLower parsed.path) "/reel/" ||
          pyContains (pyLower parsed.path) "/reels/" ||
          pyContains (pyLower parsed.path) "/tv/") = false →
        ∃ e, sns_router parsed ⟨none, none⟩ getYoutube getInstaYtdlp = .error e) := by
  intro parsed gY gI h1 h2 h3
  have hcl := sns_classify_instagram parsed ⟨none, none⟩ h1 h2 h3
  refine ⟨?_, ?_, ?_, ?_⟩
  · exact ⟨_, hcl, rfl⟩
  · intro hp
    rw [hcl]
    simp [hp]
  · intro hp hr
    rw [hcl]
    simp [hp, hr]
  · intro hp hr
    refine ⟨"unsupported content type", ?_⟩
    unfold sns_router
    rw [hcl]
    simp only [hp, hr]
    rfl

/-- C3 witness: `instagram.com` host with a `/p/` path classifies as
(instagram, image). -/
theorem claim_C3_witness :
    sns_classify ⟨"www.instagram.com", "/p/ABC/"⟩ ⟨none, none⟩ =
      .ok ⟨some "instagram", some "image"⟩ :=
  (claim_C3_amended ⟨"www.instagram.com", "/p/ABC/"⟩ (.error "y") (.error "i")
    (by decide) (by decide) (by decide)).2.1 (by decide)

/-- C4: a host containing a YouTube domain always classifies as
(youtube, video) whatever the path or prior state, and a host matching
neither the YouTube nor the Instagram pattern makes classification — and
hence the whole classify-and-route call — fail with the UnsupportedSource
error (`CustomError`). -/
theorem claim_C4 :
    ∀ (parsed : ParsedUrl) (st : RouterState)
      (getYoutube : Except String (ByteStream × String))
      (getInstaYtdlp : Except String (Option ByteStream × String)),
      ((pyContains (pyLower parsed.netloc) "youtube.com" = true ∨
        pyContains (pyLower parsed.netloc) "youtu.be" = true) →
        sns_classify parsed st =
          .ok { st with snsPlatform := some "youtube", contentType := some "video" }) ∧
      (pyContains (pyLower parsed.netloc) "youtube.com" = false →
        pyContains (pyLower parsed.netloc) "youtu.be" = false →
        pyContains (pyLower parsed.netloc) "instagram.com" = false →
        ∃ e, sns_classify parsed st = .error e ∧
          sns_router parsed st getYoutube getInstaYtdlp = .error e) := by
  intro parsed st gY gI
  constructor
  · intro h
    simp only [sns_classify]
    rw [if_pos (by rcases h with h | h <;> simp [h])]
  · intro h1 h2 h3
    have hcl : sns_classify parsed st =
        .error ("unsupported platform: " ++ pyLower parsed.netloc) := by
      simp only [sns_classify]
      rw [if_neg (by simp [h1, h2]), if_neg (by simp [h3])]
    refine ⟨"unsupported platform: " ++ pyLower parsed.netloc, hcl, ?_⟩
    unfold sns_router
    rw [hcl]

/-- C4 witness: a YouTube shorts URL classifies as (youtube, video); a
TikTok host fails classification. -/
theorem claim_C4_witness :
    sns_classify ⟨"m.youtube.com", "/shorts/abc"⟩ ⟨none, none⟩ =
      .ok ⟨some "youtube", some "video"⟩ ∧
    ∃ e, sns_classify ⟨"www.tiktok.com", "/@user/video/1"⟩ ⟨none, none⟩ = .error e ∧
      sns_router ⟨"www.tiktok.com", "/@user/video/1"⟩ ⟨none, none⟩
        (.error "y") (.error "i") = .error e :=
  ⟨(claim_C4 ⟨"m.youtube.com", "/shorts/abc"⟩ ⟨none, none⟩ (.error "y") (.error "i")).1
      (Or.inl (by decide)),
   (claim_C4 ⟨"www.tiktok.com", "/@user/video/1"⟩ ⟨none, none⟩ (.error "y") (.error "i")).2
      (by decide) (by decide) (by decide)⟩

end MapSee
